import Mathlib

/-!
Verification model of the reliability-assessment engine.

The embedding covers the two executable cores of the repository:

* the assessment engine Lambda (`index.py`): `lambda_handler`,
  `load_challenge_config`, `load_check_functions_from_s3`,
  `identify_team_account`, `assume_assessment_role`, `run_assessment`,
  `execute_check_function`, `calculate_score`, `calculate_max_score`,
  `generate_feedback`, `store_assessment_results`;
* the trigger dispatcher (`reliability-assessment-trigger.js`):
  `handler`, `identifyEventSource`, `extractParticipantIds`,
  `getActiveParticipants`, `getParticipantsFromStacks`, `triggerAssessment`.

External AWS calls (DynamoDB, S3, STS, Lambda invoke) are modelled as
explicit environment records whose fields hold each call's result, so the
control flow of the source is reproduced while staying pure.
-/

namespace RAE

/-- Python runtime value, restricted to the shapes the engine manipulates:
booleans, integers, strings, `None`, and dictionaries (as association
lists keyed by strings).  Check routines may return any such value. -/
inductive PyVal where
  | vBool : Bool → PyVal
  | vInt : Int → PyVal
  | vStr : String → PyVal
  | vNone : PyVal
  | vDict : List (String × PyVal) → PyVal

/-- Python truthiness, as used by `points if result.get('implemented', False) else 0`
and by `generate_feedback`: `False`, `0`, `""`, `None` and empty dicts are
falsy, everything else is truthy. -/
def pyTruthy : PyVal → Bool
  | .vBool b => b
  | .vInt n => n != 0
  | .vStr s => s != ""
  | .vNone => false
  | .vDict es => !es.isEmpty

/-- Python `isinstance(result, dict)`. -/
def isDict : PyVal → Bool
  | .vDict _ => true
  | _ => false

/-- Python `d.get(key)` on a dictionary value: `none` models both a missing
key and a non-dict receiver (the engine only calls `.get` after its
`isinstance(result, dict)` check, or on dicts it built itself). -/
def dictGet : PyVal → String → Option PyVal
  | .vDict es, k => es.lookup k
  | _, _ => none

/-- Python equality `==` against a string literal, as in the source's
`challenge.get('active', 'true') == 'true'` check: a `str` equals the
literal iff the text matches, while a value of any other type (`bool`,
`int`, `None`, `dict`) is never equal to a `str`.  In particular the
Python boolean `True` is not `==` to the string `'true'`. -/
def pyEqStr (v : PyVal) (s : String) : Bool :=
  match v with
  | .vStr t => t == s
  | _ => false

/-- One entry of the `assessmentCriteria` list of a challenge configuration;
the engine reads `criterion.get('id')`, `.get('name')`,
`.get('checkFunction')` and `.get('points', 0)`. -/
structure Criterion where
  id : String
  name : String
  checkFunction : String
  points : Nat
  deriving DecidableEq

/-- Challenge registry record as read by `load_challenge_config` and the
rest of the engine.  `active` is `none` when the DynamoDB item has no
`active` attribute (the source then defaults it to the string `'true'`);
`extra` carries any further attributes the item may hold, none of which
the engine ever reads. -/
structure RegistryItem where
  s3Location : String
  checkFunctionsFile : String
  active : Option PyVal
  assessmentCriteria : List Criterion
  stackNamePfx : Option String
  passingScore : Option Nat
  extra : List (String × PyVal)

/-- Behaviour of one loaded check routine during this run: how many
wall-clock seconds the call takes before it either returns a value
(`result = .ok v`) or raises (`result = .error msg`).  The routine's
arguments (participant id, stack name, credentials) do not appear since a
`RoutineRun` already describes the behaviour on this run's arguments. -/
structure RoutineRun where
  duration : Nat
  result : Except String PyVal

/-- A loaded check-functions module: mapping from function name to the
routine's behaviour.  `hasattr(check_functions, name)` is `List.lookup`
returning `some`. -/
def CheckFuncs := List (String × RoutineRun)

/-- Wall-clock deadline for one check-function call, from the source's
`signal.alarm(30)` in `execute_check_function`.  The literal does not
depend on the challenge configuration. -/
def checkTimeoutSeconds : Nat := 30

/-- Embedding of `execute_check_function`: a call whose duration exceeds
the 30-second alarm raises `TimeoutError`; otherwise a raise propagates;
otherwise the returned value must be a dict containing an `implemented`
key.  Validation stops there — the value stored under `implemented` is
not checked further. -/
def execute_check_function (run : RoutineRun) : Except String PyVal :=
  if checkTimeoutSeconds < run.duration then
    .error "Check function execution timed out"
  else
    match run.result with
    | .error e => .error e
    | .ok result =>
      if !isDict result then
        .error "Check function must return a dictionary"
      else if (dictGet result "implemented").isNone then
        .error "Check function result must include \x27implemented\x27 key"
      else
        .ok result

/-- Per-criterion output appended to `results` by `run_assessment`.
`details`/`error` are `none` when the corresponding key is absent from
the appended dict (the success path has no `error` key, the failure
paths have no `details` key). -/
structure CheckResult where
  criterionId : String
  name : String
  points : Nat
  maxPoints : Nat
  implemented : PyVal
  details : Option PyVal
  error : Option String

/-- One iteration of the `for criterion in ...` loop of `run_assessment`:
a missing function yields the synthesized "not found" entry, a raising or
timed-out or contract-violating call yields the `except` branch's entry,
and a validated return yields the success entry whose point award follows
the truthiness of `result.get('implemented', False)`. -/
def evalCriterion (check_functions : CheckFuncs) (c : Criterion) : CheckResult :=
  match List.lookup c.checkFunction check_functions with
  | none =>
      { criterionId := c.id, name := c.name, points := 0, maxPoints := c.points
        implemented := .vBool false, details := none
        error := "Check function not found: " ++ c.checkFunction }
  | some run =>
      match execute_check_function run with
      | .error e =>
          { criterionId := c.id, name := c.name, points := 0, maxPoints := c.points
            implemented := .vBool false, details := none, error := some e }
      | .ok result =>
          let impl := (dictGet result "implemented").getD (.vBool false)
          { criterionId := c.id, name := c.name
            points := if pyTruthy impl then c.points else 0
            maxPoints := c.points, implemented := impl
            details := some ((dictGet result "details").getD (.vDict []))
            error := none }

/-- Embedding of `run_assessment`: one `CheckResult` per configured
criterion, in configuration order.  (The source also derives a
`stack_name` from `stackNamePrefix` and the participant id and passes it
to every check function; that argument is already folded into each
routine's `RoutineRun` behaviour.) -/
def run_assessment (challenge_config : RegistryItem) (check_functions : CheckFuncs) :
    List CheckResult :=
  challenge_config.assessmentCriteria.map (evalCriterion check_functions)

/-- Embedding of `calculate_score`: sum of the `points` of the results. -/
def calculate_score (assessment_results : List CheckResult) : Nat :=
  (assessment_results.map (fun r => r.points)).sum

/-- Embedding of `calculate_max_score`: sum of every criterion's
`points` in the configuration. -/
def calculate_max_score (challenge_config : RegistryItem) : Nat :=
  (challenge_config.assessmentCriteria.map (fun c => c.points)).sum

/-- Entry of the feedback's `implemented` list: name plus
`result.get('details', {})`. -/
structure FeedbackImplemented where
  name : String
  details : PyVal

/-- Entry of the feedback's `suggestions` list: name plus
`result.get('maxPoints', 0)`. -/
structure FeedbackSuggestion where
  name : String
  points : Nat

/-- Feedback record built by `generate_feedback`. -/
structure Feedback where
  summary : String
  implemented : List FeedbackImplemented
  suggestions : List FeedbackSuggestion

/-- Embedding of `generate_feedback`: partition of the results by the
truthiness of `implemented`, plus a summary whose wording depends on
`passed`. -/
def generate_feedback (assessment_results : List CheckResult) (score : Nat)
    (passed : Bool) : Feedback :=
  let implemented := (assessment_results.filter (fun r => pyTruthy r.implemented)).map
    (fun r => FeedbackImplemented.mk r.name (r.details.getD (.vDict [])))
  let suggestions := (assessment_results.filter (fun r => !pyTruthy r.implemented)).map
    (fun r => FeedbackSuggestion.mk r.name r.maxPoints)
  let summary :=
    if passed then
      "Congratulations! You\x27ve successfully passed the challenge with a score of "
        ++ Nat.repr score ++ "."
    else
      "You\x27ve scored " ++ Nat.repr score
        ++ " points, but need more improvements to pass the challenge."
  { summary := summary, implemented := implemented, suggestions := suggestions }

/-- Temporary credentials returned by the STS `assume_role` call. -/
structure Creds where
  aws_access_key_id : String
  aws_secret_access_key : String
  aws_session_token : String

/-- Item written to the assessment-results table by
`store_assessment_results`. -/
structure StoredItem where
  participantId : String
  challengeId : String
  teamId : String
  timestamp : Nat
  score : Nat
  details : List CheckResult
  passed : Bool
  assessedAt : String

/-- Result of the S3 fetch plus dynamic import performed by
`load_check_functions_from_s3`: the `get_object` call may fail with a
`ClientError`, the `exec_module` step may raise, or the module loads. -/
inductive S3LoadResult where
  | clientError : String → S3LoadResult
  | execError : String → S3LoadResult
  | ok : CheckFuncs → S3LoadResult

/-- Environment of one engine invocation: the outcome each external AWS
call would produce, plus the two team-account environment variables. -/
structure Env where
  registryGet : String → Except String (Option RegistryItem)
  s3FetchModule : String → String → S3LoadResult
  assumeRoleRaw : String → Except String Creds
  putItemRaw : StoredItem → Except String Unit
  teamAccountMapping : List (String × String)
  defaultTeamAccount : String

/-- Clock readings of one invocation: `int(time.time())`,
`int(time.time() * 1000)` and `datetime.now().isoformat()`. -/
structure RunContext where
  epochSeconds : Nat
  epochMillis : Nat
  isoNow : String

/-- Embedding of `load_challenge_config`'s activity test: a record is
treated as active exactly when `challenge.get('active', 'true') == 'true'`
holds, i.e. the attribute is absent or is the string `'true'`. -/
def challengeIsActive (challenge : RegistryItem) : Bool :=
  pyEqStr (challenge.active.getD (.vStr "true")) "true"

/-- Embedding of `load_challenge_config`: a DynamoDB `ClientError`, a
missing item and an inactive item each raise with the source's message;
otherwise the item is returned. -/
def load_challenge_config (env : Env) (challenge_id : String) :
    Except String RegistryItem :=
  match env.registryGet challenge_id with
  | .error e => .error ("Failed to load challenge configuration: " ++ e)
  | .ok none => .error ("Challenge not found: " ++ challenge_id)
  | .ok (some challenge) =>
      if !challengeIsActive challenge then
        .error ("Challenge is not active: " ++ challenge_id)
      else
        .ok challenge

/-- Internal module name chosen by `load_check_functions_from_s3`:
`f"check_functions_{int(time.time())}"` — it depends only on the
wall-clock second of the load. -/
def moduleNameAt (epochSeconds : Nat) : String :=
  "check_functions_" ++ Nat.repr epochSeconds

/-- A module loaded by `load_check_functions_from_s3`: the generated
`sys.modules` name together with the check functions it exposes. -/
structure LoadedModule where
  name : String
  funcs : CheckFuncs

/-- Embedding of `load_check_functions_from_s3`: an S3 `ClientError` and
an import-time error raise with their distinct messages; on success the
module is instantiated under the timestamp-derived name. -/
def load_check_functions_from_s3 (env : Env) (s3_location check_functions_file : String)
    (epochSeconds : Nat) : Except String LoadedModule :=
  match env.s3FetchModule s3_location check_functions_file with
  | .clientError e => .error ("Failed to load check functions from S3: " ++ e)
  | .execError e => .error ("Failed to load check functions: " ++ e)
  | .ok funcs => .ok { name := moduleNameAt epochSeconds, funcs := funcs }

/-- Python `sys.modules[name] = module`: a later assignment under the same
name shadows an earlier one; `List.lookup` models the dict read. -/
def sysModulesSet (mods : List (String × CheckFuncs)) (name : String)
    (funcs : CheckFuncs) : List (String × CheckFuncs) :=
  (name, funcs) :: mods

/-- Embedding of `identify_team_account`: the `TEAM_ACCOUNT_MAPPING` entry
for the team if present, else the default account id. -/
def identify_team_account (env : Env) (team_id : String) : String :=
  (env.teamAccountMapping.lookup team_id).getD env.defaultTeamAccount

/-- Embedding of `assume_assessment_role`: builds the role ARN for the
account and wraps an STS failure in the source's message. -/
def assume_assessment_role (env : Env) (account_id : String) : Except String Creds :=
  let role_arn := "arn:aws:iam::" ++ account_id ++ ":role/AssessmentEngineAccessRole"
  match env.assumeRoleRaw role_arn with
  | .error e => .error ("Failed to assume role in participant account: " ++ e)
  | .ok creds => .ok creds

/-- Embedding of `store_assessment_results`: a DynamoDB `ClientError` on
`put_item` is re-raised wrapped in the source's message. -/
def store_assessment_results (env : Env) (item : StoredItem) : Except String Unit :=
  match env.putItemRaw item with
  | .error e => .error ("Failed to store assessment results: " ++ e)
  | .ok u => .ok u

/-- Input event of `lambda_handler`. -/
structure EngineEvent where
  participantId : Option String
  challengeId : Option String
  teamId : Option String

/-- Dict returned by a successful `lambda_handler` invocation. -/
structure EngineResponse where
  participantId : String
  challengeId : String
  teamId : String
  score : Nat
  maxScore : Nat
  passed : Bool
  results : List CheckResult
  feedback : Feedback
  timestamp : String

/-- External side effects one engine invocation performed: which of the
bundle load, the credential acquisition and the results-store write were
reached, and the items actually written to the results store. -/
structure Effects where
  bundleLoadAttempted : Bool
  credsAttempted : Bool
  persistAttempted : Bool
  stored : List StoredItem

/-- Effects of an invocation that aborted before any external call past
the registry read. -/
def noEffects : Effects :=
  { bundleLoadAttempted := false, credsAttempted := false
    persistAttempted := false, stored := [] }

/-- Embedding of `lambda_handler`.  Any exception raised by a stage
propagates out of the handler (the source's outer `except` only emits a
best-effort error metric — which cannot change the outcome — and
re-raises), so the first component is the value returned to the caller or
the error that reached them, and the second records which external
effects happened. -/
def lambda_handler (env : Env) (ctx : RunContext) (event : EngineEvent) :
    Except String EngineResponse × Effects :=
  if event.participantId.getD "" = "" ∨ event.challengeId.getD "" = "" then
    (.error "Missing required parameters: participantId and challengeId", noEffects)
  else
    let participant_id := event.participantId.getD ""
    let challenge_id := event.challengeId.getD ""
    let team_id := event.teamId.getD "default-team"
    match load_challenge_config env challenge_id with
    | .error e => (.error e, noEffects)
    | .ok challenge_config =>
      match load_check_functions_from_s3 env challenge_config.s3Location
          challenge_config.checkFunctionsFile ctx.epochSeconds with
      | .error e => (.error e, { noEffects with bundleLoadAttempted := true })
      | .ok loaded =>
        let team_account_id := identify_team_account env team_id
        match assume_assessment_role env team_account_id with
        | .error e =>
            (.error e,
             { noEffects with bundleLoadAttempted := true, credsAttempted := true })
        | .ok _creds =>
          let assessment_results := run_assessment challenge_config loaded.funcs
          let score := calculate_score assessment_results
          let passed := decide (challenge_config.passingScore.getD 80 ≤ score)
          let feedback := generate_feedback assessment_results score passed
          let item : StoredItem :=
            { participantId := participant_id, challengeId := challenge_id
              teamId := team_id, timestamp := ctx.epochMillis, score := score
              details := assessment_results, passed := passed
              assessedAt := ctx.isoNow }
          match store_assessment_results env item with
          | .error e =>
              (.error e,
               { bundleLoadAttempted := true, credsAttempted := true
                 persistAttempted := true, stored := [] })
          | .ok _ =>
              (.ok { participantId := participant_id, challengeId := challenge_id
                     teamId := team_id, score := score
                     maxScore := calculate_max_score challenge_config
                     passed := passed, results := assessment_results
                     feedback := feedback, timestamp := ctx.isoNow },
               { bundleLoadAttempted := true, credsAttempted := true
                 persistAttempted := true, stored := [item] })

/-! Trigger dispatcher (`reliability-assessment-trigger.js`). -/

/-- Trigger event as read by the dispatcher: `event.source`,
`event['detail-type']`, `event.httpMethod`, `event.path`,
`event.pathParameters.participantId`, `event.participantId`, and
`event.detail.stackId`.  A `none` field models an absent property. -/
structure TriggerEvent where
  source : Option String
  detailType : Option String
  httpMethod : Option String
  path : Option String
  pathParticipantId : Option String
  participantId : Option String
  detailStackId : Option String

/-- JavaScript truthiness of an optional string property: absent and empty
values are falsy. -/
def jsTruthyStr (o : Option String) : Bool :=
  o.getD "" != ""

/-- Embedding of `identifyEventSource`: a truthy `event.source` wins over
every other shape test, then the two `detail-type` comparisons, then the
API-gateway shape, else `unknown`. -/
def identifyEventSource (event : TriggerEvent) : String :=
  if jsTruthyStr event.source then event.source.getD ""
  else if event.detailType = some "Scheduled Event" then "scheduled-event"
  else if event.detailType = some "CloudFormation Stack Status Change" then
    "resource-change"
  else if jsTruthyStr event.httpMethod && jsTruthyStr event.path then "manual-api"
  else "unknown"

/-- First-occurrence deduplication with an accumulator of already-seen
elements; this is the observable behaviour of the source's
`[...new Set(xs)]`, which preserves insertion order. -/
def uniqueFirstAux (seen : List String) : List String → List String
  | [] => []
  | x :: xs =>
      if x ∈ seen then uniqueFirstAux seen xs
      else x :: uniqueFirstAux (x :: seen) xs

/-- JavaScript `[...new Set(xs)]`: keeps the first occurrence of every
element, in order. -/
def uniqueFirst (xs : List String) : List String :=
  uniqueFirstAux [] xs

/-- Environment of one dispatcher invocation: the result DynamoDB `query`
on the StatusIndex would return (the `participantId` of each item), the
result the CloudFormation `listStacks` fallback would return, and whether
the `lambda.invoke` call for a given participant succeeds. -/
structure TriggerEnv where
  activeQuery : Except String (List String)
  stacksQuery : Except String (List String)
  invokeOk : String → Bool

/-- Embedding of `getParticipantsFromStacks`: filter completed stacks by
the `ctf-unreliable-app-` naming convention, strip the marker and keep
the first dash-separated segment, then deduplicate; an error yields no
participants. -/
def getParticipantsFromStacks (env : TriggerEnv) : List String :=
  match env.stacksQuery with
  | .error _ => []
  | .ok stackNames =>
      uniqueFirst (((stackNames.filter
          (fun s => s.startsWith "ctf-unreliable-app-")).map
        (fun s => (((s.replace "ctf-unreliable-app-" "").splitOn "-").headD ""))))

/-- Embedding of `getActiveParticipants`: the unique participant ids of
the StatusIndex query, falling back to the stack scan when the query
errors. -/
def getActiveParticipants (env : TriggerEnv) : List String :=
  match env.activeQuery with
  | .ok items => uniqueFirst items
  | .error _ => getParticipantsFromStacks env

/-- Embedding of `extractParticipantIds`: the switch over the identified
source string; any source string other than the three known cases yields
no participants. -/
def extractParticipantIds (env : TriggerEnv) (event : TriggerEvent)
    (source : String) : List String :=
  if source = "scheduled-event" then
    getActiveParticipants env
  else if source = "resource-change" then
    match event.detailStackId with
    | none => []
    | some stackId =>
        let stackName := ((stackId.splitOn "/").getD 1 "")
        if !stackName.startsWith "ctf-unreliable-app-" then []
        else [(((stackName.replace "ctf-unreliable-app-" "").splitOn "-").headD "")]
  else if source = "manual-api" then
    if jsTruthyStr event.pathParticipantId then [event.pathParticipantId.getD ""]
    else if jsTruthyStr event.participantId then [event.participantId.getD ""]
    else []
  else []

/-- Per-participant record built by `triggerAssessment`. -/
structure DispatchRecord where
  participantId : String
  source : String
  status : String
  deriving DecidableEq

/-- Embedding of `triggerAssessment`: an asynchronous `lambda.invoke` that
succeeds yields status `triggered`; a failing invoke call is caught and
yields status `failed`. -/
def triggerAssessment (env : TriggerEnv) (participantId source : String) :
    DispatchRecord :=
  if env.invokeOk participantId then
    { participantId := participantId, source := source, status := "triggered" }
  else
    { participantId := participantId, source := source, status := "failed" }

/-- HTTP-shaped response of the dispatcher. -/
structure TriggerResponse where
  statusCode : Nat
  message : String
  results : List DispatchRecord

/-- Embedding of the dispatcher `handler`: identify the source, extract
participant ids, short-circuit when there are none, otherwise invoke the
assessment engine once per id and summarise the triggered/failed
counts. -/
def trigger_handler (env : TriggerEnv) (event : TriggerEvent) : TriggerResponse :=
  let source := identifyEventSource event
  let participantIds := extractParticipantIds env event source
  if participantIds.isEmpty then
    { statusCode := 200, message := "No participants to assess", results := [] }
  else
    let results := participantIds.map (fun pid => triggerAssessment env pid source)
    let successful := (results.filter (fun r => r.status == "triggered")).length
    let failed := (results.filter (fun r => r.status == "failed")).length
    { statusCode := 200
      message := "Triggered " ++ Nat.repr successful ++ " assessments ("
        ++ Nat.repr failed ++ " failed)"
      results := results }

/-! Decimal-digit characters of a natural number, most significant first.
This is the reference function `Nat.toDigits 10` is proved equal to below,
in order to show `Nat.repr` injective (needed for reasoning about the
loader's `check_functions_<epoch-seconds>` module names). -/

/-- Decimal digit characters of `n`, most significant first. -/
def natChars (n : Nat) : List Char :=
  if _h : n < 10 then [Nat.digitChar n]
  else natChars (n / 10) ++ [Nat.digitChar (n % 10)]
decreasing_by exact Nat.div_lt_self (by omega) (by omega)

/-! Concrete sample data for witnesses and counterexamples.  The
criteria, configuration and registry values mirror the repository's
sample challenge `reliability-voting-system`. -/

/-- Sample criterion: multi-region deployment, 10 points. -/
def critMR : Criterion :=
  { id := "multi-region", name := "Multi-Region Deployment"
    checkFunction := "check_multi_region_deployment", points := 10 }

/-- Sample criterion: DynamoDB point-in-time recovery, 10 points. -/
def critDB : Criterion :=
  { id := "dynamodb-backup", name := "DynamoDB Point-in-Time Recovery"
    checkFunction := "check_dynamodb_backups", points := 10 }

/-- Sample criterion: error handling, 15 points. -/
def critEH : Criterion :=
  { id := "error-handling", name := "Error Handling and Retry Logic"
    checkFunction := "check_error_handling", points := 15 }

/-- Sample criterion whose check function is absent from every sample
module. -/
def critMissing : Criterion :=
  { id := "gone", name := "Gone Criterion", checkFunction := "check_gone", points := 5 }

/-- Sample active registry record for `reliability-voting-system`. -/
def cfgSample : RegistryItem :=
  { s3Location := "s3://ctf-reliability-challenges/voting-system/"
    checkFunctionsFile := "check-functions.py", active := some (.vStr "true")
    assessmentCriteria := [critMR, critDB, critEH]
    stackNamePfx := some "reliability-challenge-", passingScore := some 80
    extra := [] }

/-- Sample loaded module: the first routine passes, the second returns
implemented false, the third sleeps past the 30-second alarm. -/
def funcsSample : CheckFuncs :=
  [("check_multi_region_deployment",
    { duration := 2
      result := .ok (.vDict [("implemented", .vBool true),
        ("details", .vDict [("regions", .vStr "us-east-1")])]) }),
   ("check_dynamodb_backups",
    { duration := 1, result := .ok (.vDict [("implemented", .vBool false)]) }),
   ("check_error_handling",
    { duration := 40, result := .ok (.vDict [("implemented", .vBool true)]) })]

/-- Sample module for contract-violation cases: one routine returns a
bare string instead of a dict, one returns a dict without the
`implemented` key, one raises. -/
def funcsBadShape : CheckFuncs :=
  [("check_multi_region_deployment",
    { duration := 1, result := .ok (.vStr "looks fine") }),
   ("check_dynamodb_backups",
    { duration := 1, result := .ok (.vDict [("details", .vDict [])]) }),
   ("check_error_handling",
    { duration := 1, result := .error "AccessDenied when calling ListFunctions" })]

/-- Sample module whose only routine returns a non-boolean truthy value
under the `implemented` key. -/
def funcsNonBool : CheckFuncs :=
  [("check_multi_region_deployment",
    { duration := 1, result := .ok (.vDict [("implemented", .vInt 1)]) })]

/-- Registry record with a single criterion, for the smaller
counterexamples. -/
def cfgOneCrit : RegistryItem :=
  { s3Location := "s3://ctf-reliability-challenges/one/"
    checkFunctionsFile := "check-functions.py", active := none
    assessmentCriteria := [critMR], stackNamePfx := none, passingScore := none
    extra := [] }

/-- Registry record carrying a configured `checkTimeout` attribute of 5
seconds among its unread extra attributes. -/
def cfgT5 : RegistryItem :=
  { cfgOneCrit with
    assessmentCriteria := [critMR, critDB]
    extra := [("checkTimeout", .vInt 5)] }

/-- Registry record identical to `cfgT5` except its configured
`checkTimeout` attribute says 60 seconds. -/
def cfgT60 : RegistryItem :=
  { cfgOneCrit with
    assessmentCriteria := [critMR, critDB]
    extra := [("checkTimeout", .vInt 60)] }

/-- Module with a routine that takes 45 seconds and a routine that takes
10 seconds, both eventually returning implemented true. -/
def funcsSlowQuick : CheckFuncs :=
  [("check_multi_region_deployment",
    { duration := 45, result := .ok (.vDict [("implemented", .vBool true)]) }),
   ("check_dynamodb_backups",
    { duration := 10, result := .ok (.vDict [("implemented", .vBool true)]) })]

/-- Sample temporary credentials. -/
def credsSample : Creds :=
  { aws_access_key_id := "AKIAEXAMPLE", aws_secret_access_key := "secret"
    aws_session_token := "token" }

/-- Engine environment in which every external call succeeds. -/
def envHappy : Env :=
  { registryGet := fun cid =>
      if cid = "reliability-voting-system" then .ok (some cfgSample) else .ok none
    s3FetchModule := fun _ _ => .ok funcsSample
    assumeRoleRaw := fun _ => .ok credsSample
    putItemRaw := fun _ => .ok ()
    teamAccountMapping := [("team1", "111111111111")]
    defaultTeamAccount := "123456789012" }

/-- Environment identical to `envHappy` except the registry has no item
for any challenge id. -/
def envNotFound : Env :=
  { envHappy with registryGet := fun _ => .ok none }

/-- Registry record that is present but stores the boolean `True` (not
the string `'true'`) under `active`. -/
def cfgBoolActive : RegistryItem :=
  { cfgSample with active := some (.vBool true) }

/-- Environment whose registry record stores boolean `True` under
`active`. -/
def envInactive : Env :=
  { envHappy with registryGet := fun _ => .ok (some cfgBoolActive) }

/-- Environment identical to `envHappy` except the S3 bundle fetch fails
with a ClientError. -/
def envS3Fail : Env :=
  { envHappy with s3FetchModule := fun _ _ => .clientError "NoSuchKey" }

/-- Environment identical to `envHappy` except the STS role assumption
is denied. -/
def envStsFail : Env :=
  { envHappy with assumeRoleRaw := fun _ => .error "AccessDenied" }

/-- Environment identical to `envHappy` except the results-store write
fails with a ClientError. -/
def envStoreFail : Env :=
  { envHappy with putItemRaw := fun _ => .error "ProvisionedThroughputExceededException" }

/-- Sample clock readings. -/
def ctxSample : RunContext :=
  { epochSeconds := 1700000000, epochMillis := 1700000000123
    isoNow := "2023-11-14T22:13:20" }

/-- Sample engine event. -/
def eventSample : EngineEvent :=
  { participantId := some "p1", challengeId := some "reliability-voting-system"
    teamId := some "team1" }

/-- The per-criterion results `run_assessment` produces for `cfgSample`
under `funcsSample`. -/
def resultsHappy : List CheckResult :=
  [{ criterionId := "multi-region", name := "Multi-Region Deployment"
     points := 10, maxPoints := 10, implemented := .vBool true
     details := some (.vDict [("regions", .vStr "us-east-1")]), error := none },
   { criterionId := "dynamodb-backup", name := "DynamoDB Point-in-Time Recovery"
     points := 0, maxPoints := 10, implemented := .vBool false
     details := some (.vDict []), error := none },
   { criterionId := "error-handling", name := "Error Handling and Retry Logic"
     points := 0, maxPoints := 15, implemented := .vBool false
     details := none, error := some "Check function execution timed out" }]

/-- The item `lambda_handler` writes to the results store on the
`envHappy` run. -/
def itemHappy : StoredItem :=
  { participantId := "p1", challengeId := "reliability-voting-system"
    teamId := "team1", timestamp := 1700000000123, score := 10
    details := resultsHappy, passed := false
    assessedAt := "2023-11-14T22:13:20" }

/-- The response `lambda_handler` returns on the `envHappy` run. -/
def respHappy : EngineResponse :=
  { participantId := "p1", challengeId := "reliability-voting-system"
    teamId := "team1", score := 10, maxScore := 35, passed := false
    results := resultsHappy
    feedback :=
      { summary :=
          "You\x27ve scored 10 points, but need more improvements to pass the challenge."
        implemented :=
          [{ name := "Multi-Region Deployment"
             details := .vDict [("regions", .vStr "us-east-1")] }]
        suggestions :=
          [{ name := "DynamoDB Point-in-Time Recovery", points := 10 },
           { name := "Error Handling and Retry Logic", points := 15 }] }
    timestamp := "2023-11-14T22:13:20" }

/-- Effects of a run that reached and succeeded at the results-store
write. -/
def fxHappy : Effects :=
  { bundleLoadAttempted := true, credsAttempted := true
    persistAttempted := true, stored := [itemHappy] }

/-! Sample data for the trigger dispatcher. -/

/-- The scheduled-event shape sent by EventBridge and used by the
repository's own test: both `source: 'aws.events'` and
`detail-type: 'Scheduled Event'` are present. -/
def schedEvtWithSource : TriggerEvent :=
  { source := some "aws.events", detailType := some "Scheduled Event"
    httpMethod := none, path := none, pathParticipantId := none
    participantId := none, detailStackId := none }

/-- A scheduled event carrying only the `detail-type` marker (no
`source` property). -/
def schedEvtNoSource : TriggerEvent :=
  { schedEvtWithSource with source := none }

/-- Trigger environment whose active-participants query returns the two
test users and whose engine invocations all succeed. -/
def envTriggerTwo : TriggerEnv :=
  { activeQuery := .ok ["test-user-1", "test-user-2"]
    stacksQuery := .ok [], invokeOk := fun _ => true }

/-- Trigger environment whose active-participants query returns a
duplicated enumeration `[A, B, A]`. -/
def envTriggerDup : TriggerEnv :=
  { activeQuery := .ok ["participant-a", "participant-b", "participant-a"]
    stacksQuery := .ok [], invokeOk := fun _ => true }

/-! Sample data for the routine-loader claims. -/

/-- Check functions of the first sample bundle. -/
def funcsBundleA : CheckFuncs := []

/-- Check functions of the second sample bundle. -/
def funcsBundleB : CheckFuncs :=
  [("check_x", { duration := 0, result := .ok (.vDict [("implemented", .vBool true)]) })]

/-- Environment that serves a different bundle per S3 location. -/
def envLoader : Env :=
  { envHappy with
    s3FetchModule := fun loc _ =>
      if loc = "s3://ctf-reliability-challenges/def-a/" then .ok funcsBundleA
      else .ok funcsBundleB }

/-! Helper lemmas. -/

/-- Accumulator lemma for `Nat.toDigitsCore`: the pending digits are
appended to the digits produced from an empty accumulator. -/
lemma toDigitsCore_append (b fuel n : Nat) (ds : List Char) :
    Nat.toDigitsCore b fuel n ds = Nat.toDigitsCore b fuel n [] ++ ds := by
  induction fuel generalizing n ds with
  | zero => simp [Nat.toDigitsCore]
  | succ fuel ih =>
    simp only [Nat.toDigitsCore]
    split
    · simp
    · rw [ih (n / b) (Nat.digitChar (n % b) :: ds),
        ih (n / b) [Nat.digitChar (n % b)], List.append_assoc]
      rfl

/-- Unfolding of `natChars` on a single-digit number. -/
lemma natChars_small {n : Nat} (h : n < 10) : natChars n = [Nat.digitChar n] := by
  rw [natChars]
  exact dif_pos h

/-- Unfolding of `natChars` on a multi-digit number. -/
lemma natChars_large {n : Nat} (h : ¬ n < 10) :
    natChars n = natChars (n / 10) ++ [Nat.digitChar (n % 10)] := by
  rw [natChars]
  exact dif_neg h

/-- A decimal representation is never empty. -/
lemma natChars_ne_nil (n : Nat) : natChars n ≠ [] := by
  by_cases h : n < 10
  · rw [natChars_small h]
    simp
  · rw [natChars_large h]
    simp

/-- With enough fuel, `Nat.toDigitsCore` base 10 computes `natChars`. -/
lemma toDigitsCore_eq_natChars : ∀ fuel n : Nat, n < fuel →
    Nat.toDigitsCore 10 fuel n [] = natChars n := by
  intro fuel
  induction fuel with
  | zero => omega
  | succ fuel ih =>
    intro n hn
    simp only [Nat.toDigitsCore]
    split
    · rename_i hz
      have h10 : n < 10 := by omega
      rw [natChars_small h10, Nat.mod_eq_of_lt h10]
    · rename_i hz
      have h10 : ¬ n < 10 := by omega
      rw [toDigitsCore_append, ih (n / 10) (by omega), natChars_large h10]

/-- `Nat.digitChar` is injective on decimal digits. -/
lemma digitChar_inj : ∀ a : Nat, a < 10 → ∀ b : Nat, b < 10 →
    Nat.digitChar a = Nat.digitChar b → a = b := by decide

/-- Distinct numbers have distinct decimal representations. -/
lemma natChars_injective : ∀ n m : Nat, natChars n = natChars m → n = m := by
  intro n
  induction n using Nat.strong_induction_on with
  | _ n ih =>
    intro m h
    by_cases h1 : n < 10 <;> by_cases h2 : m < 10
    · rw [natChars_small h1, natChars_small h2] at h
      exact digitChar_inj n h1 m h2 (by simpa using h)
    · rw [natChars_small h1, natChars_large h2] at h
      have hlen := congrArg List.length h
      simp only [List.length_cons, List.length_append, List.length_nil] at hlen
      have hpos : 0 < (natChars (m / 10)).length :=
        List.length_pos.mpr (natChars_ne_nil _)
      omega
    · rw [natChars_large h1, natChars_small h2] at h
      have hlen := congrArg List.length h
      simp only [List.length_cons, List.length_append, List.length_nil] at hlen
      have hpos : 0 < (natChars (n / 10)).length :=
        List.length_pos.mpr (natChars_ne_nil _)
      omega
    · rw [natChars_large h1, natChars_large h2] at h
      have hparts := List.append_inj' h rfl
      have hmod : n % 10 = m % 10 :=
        digitChar_inj (n % 10) (by omega) (m % 10) (by omega)
          (by simpa using hparts.2)
      have hdiv : n / 10 = m / 10 :=
        ih (n / 10) (Nat.div_lt_self (by omega) (by omega)) (m / 10) hparts.1
      omega

/-- The decimal string of a natural number determines the number. -/
lemma nat_repr_injective : ∀ n m : Nat, Nat.repr n = Nat.repr m → n = m := by
  intro n m h
  have h2 : Nat.toDigits 10 n = Nat.toDigits 10 m := List.asString_inj.mp h
  rw [Nat.toDigits, Nat.toDigits, toDigitsCore_eq_natChars (n + 1) n (by omega),
    toDigitsCore_eq_natChars (m + 1) m (by omega)] at h2
  exact natChars_injective n m h2

/-- Appending to a fixed string on the left is injective. -/
lemma string_append_left_cancel {s a b : String} (h : s ++ a = s ++ b) : a = b := by
  have h2 : (s ++ a).data = (s ++ b).data := by rw [h]
  simp only [String.data_append] at h2
  have h3 : a.data = b.data := List.append_cancel_left h2
  cases a
  cases b
  exact congrArg String.mk h3

/-- Every per-criterion result carries the criterion's identifier. -/
lemma evalCriterion_criterionId (funcs : CheckFuncs) (c : Criterion) :
    (evalCriterion funcs c).criterionId = c.id := by
  unfold evalCriterion
  split
  · rfl
  · split <;> rfl

/-- Every per-criterion result carries the criterion's point value as its
maximum. -/
lemma evalCriterion_maxPoints (funcs : CheckFuncs) (c : Criterion) :
    (evalCriterion funcs c).maxPoints = c.points := by
  unfold evalCriterion
  split
  · rfl
  · split <;> rfl

/-- Every per-criterion result has the shape produced by one loop
iteration: its points are its criterion's points when `implemented` is
truthy and zero otherwise. -/
lemma evalCriterion_shape (funcs : CheckFuncs) (c : Criterion) :
    ∃ impl det err,
      evalCriterion funcs c =
        { criterionId := c.id, name := c.name
          points := if pyTruthy impl then c.points else 0, maxPoints := c.points
          implemented := impl, details := det, error := err } := by
  unfold evalCriterion
  split
  · exact ⟨.vBool false, none, some ("Check function not found: " ++ c.checkFunction), rfl⟩
  · split
    · rename_i e heq
      exact ⟨.vBool false, none, some e, rfl⟩
    · rename_i result heq
      exact ⟨(dictGet result "implemented").getD (.vBool false),
        some ((dictGet result "details").getD (.vDict [])), none, rfl⟩

/-- A result's awarded points are the criterion's points when its
`implemented` value is truthy and zero otherwise. -/
lemma evalCriterion_points (funcs : CheckFuncs) (c : Criterion) :
    (evalCriterion funcs c).points =
      if pyTruthy (evalCriterion funcs c).implemented then c.points else 0 := by
  obtain ⟨impl, det, err, hsh⟩ := evalCriterion_shape funcs c
  rw [hsh]

/-- A result never awards more than the criterion's point value. -/
lemma evalCriterion_points_le (funcs : CheckFuncs) (c : Criterion) :
    (evalCriterion funcs c).points ≤ c.points := by
  rw [evalCriterion_points]
  split <;> simp

/-- The assessment's total score equals the sum, over the outcomes whose
`implemented` value is truthy, of their criteria's point values
(`maxPoints`). -/
lemma score_eq_sum_implemented (rs : List CheckResult)
    (hpts : ∀ r ∈ rs, r.points = if pyTruthy r.implemented then r.maxPoints else 0) :
    calculate_score rs =
      ((rs.filter (fun r => pyTruthy r.implemented)).map (fun r => r.maxPoints)).sum := by
  induction rs with
  | nil => rfl
  | cons r rest ih =>
    have hr := hpts r (List.mem_cons_self r rest)
    have hrest : ∀ x ∈ rest, x.points = if pyTruthy x.implemented then x.maxPoints else 0 :=
      fun x hx => hpts x (List.mem_cons_of_mem r hx)
    unfold calculate_score at ih ⊢
    simp only [List.map_cons, List.sum_cons, List.filter_cons, hr]
    by_cases h : pyTruthy r.implemented
    · simp only [h, if_true, List.map_cons, List.sum_cons]
      rw [ih hrest]
    · simp only [h, if_false, Nat.zero_add, Bool.false_eq_true]
      rw [ih hrest]

/-- Every outcome of `run_assessment` awards its `maxPoints` when its
`implemented` is truthy and zero otherwise. -/
lemma run_assessment_points (cfg : RegistryItem) (funcs : CheckFuncs) :
    ∀ r ∈ run_assessment cfg funcs,
      r.points = if pyTruthy r.implemented then r.maxPoints else 0 := by
  intro r hr
  unfold run_assessment at hr
  obtain ⟨c, _, rfl⟩ := List.mem_map.mp hr
  rw [evalCriterion_points, evalCriterion_maxPoints]

/-- The `maxPoints` of the outcomes are the configured point values, in
order. -/
lemma run_assessment_maxPoints (cfg : RegistryItem) (funcs : CheckFuncs) :
    (run_assessment cfg funcs).map (fun r => r.maxPoints) =
      cfg.assessmentCriteria.map (fun c => c.points) := by
  unfold run_assessment
  rw [List.map_map]
  exact List.map_congr_left (fun c _ => evalCriterion_maxPoints funcs c)

/-- The total score never exceeds the sum of all point values. -/
lemma score_le_max (l : List Criterion) (funcs : CheckFuncs) :
    calculate_score (l.map (evalCriterion funcs)) ≤
      (l.map (fun c => c.points)).sum := by
  unfold calculate_score
  induction l with
  | nil => simp
  | cons c cs ih =>
    simp only [List.map_cons, List.sum_cons]
    exact Nat.add_le_add (evalCriterion_points_le funcs c) ih

/-- Inversion of a completed run: a handler invocation that returned
`.ok` went through a successful definition resolution, bundle load and
role assumption, and its response's results, score and maximum score are
the ones computed from that configuration and module. -/
lemma handler_ok_inv {env : Env} {ctx : RunContext} {event : EngineEvent}
    {resp : EngineResponse} {fx : Effects}
    (h : lambda_handler env ctx event = (.ok resp, fx)) :
    ∃ cfg loaded creds,
      load_challenge_config env (event.challengeId.getD "") = .ok cfg ∧
      load_check_functions_from_s3 env cfg.s3Location cfg.checkFunctionsFile
        ctx.epochSeconds = .ok loaded ∧
      assume_assessment_role env
        (identify_team_account env (event.teamId.getD "default-team")) = .ok creds ∧
      resp.results = run_assessment cfg loaded.funcs ∧
      resp.score = calculate_score (run_assessment cfg loaded.funcs) ∧
      resp.maxScore = calculate_max_score cfg := by
  unfold lambda_handler at h
  split at h
  · simp at h
  · dsimp only at h
    split at h
    · simp at h
    · rename_i cfg hcfg
      split at h
      · simp at h
      · rename_i loaded hload
        split at h
        · simp at h
        · rename_i creds hcreds
          split at h
          · simp at h
          · rename_i u hstore
            simp only [Prod.mk.injEq, Except.ok.injEq] at h
            obtain ⟨hresp, hfx⟩ := h
            subst hresp
            exact ⟨cfg, loaded, creds, hcfg, hload, hcreds, rfl, rfl, rfl⟩

/-- C1: for every completed assessment run, the total score in the
returned result equals the sum of the point values of exactly those
criteria whose outcome has a truthy `implemented`, the maximum score
equals the sum of all criteria's point values, and the total score is at
most the maximum score. -/
theorem assessment_score_invariant (env : Env) (ctx : RunContext) (event : EngineEvent)
    (resp : EngineResponse) (fx : Effects) (cfg : RegistryItem)
    (h : lambda_handler env ctx event = (.ok resp, fx))
    (hcfg : load_challenge_config env (event.challengeId.getD "") = .ok cfg) :
    resp.score = ((resp.results.filter (fun r => pyTruthy r.implemented)).map
      (fun r => r.maxPoints)).sum ∧
    resp.results.map (fun r => r.maxPoints) =
      cfg.assessmentCriteria.map (fun c => c.points) ∧
    resp.maxScore = (cfg.assessmentCriteria.map (fun c => c.points)).sum ∧
    resp.score ≤ resp.maxScore := by
  obtain ⟨cfg2, loaded, creds, hcfg2, hload, hcreds, hres, hscore, hmax⟩ :=
    handler_ok_inv h
  rw [hcfg] at hcfg2
  obtain rfl : cfg = cfg2 := by
    cases hcfg2
    rfl
  refine ⟨?_, ?_, ?_, ?_⟩
  · rw [hscore, hres]
    exact score_eq_sum_implemented _ (run_assessment_points cfg loaded.funcs)
  · rw [hres]
    exact run_assessment_maxPoints cfg loaded.funcs
  · rw [hmax]
    rfl
  · rw [hscore, hmax]
    exact score_le_max cfg.assessmentCriteria loaded.funcs

/-- Witness for C1 on the `envHappy` run: the run completes, scores 10 of
35, and the invariants hold concretely. -/
theorem assessment_score_invariant_witness :
    respHappy.score = ((respHappy.results.filter (fun r => pyTruthy r.implemented)).map
      (fun r => r.maxPoints)).sum ∧
    respHappy.results.map (fun r => r.maxPoints) =
      cfgSample.assessmentCriteria.map (fun c => c.points) ∧
    respHappy.maxScore = (cfgSample.assessmentCriteria.map (fun c => c.points)).sum ∧
    respHappy.score ≤ respHappy.maxScore :=
  assessment_score_invariant envHappy ctxSample eventSample respHappy fxHappy cfgSample
    rfl rfl

/-- C2: a run's result list has exactly one outcome per configured
criterion, in definition order, and a criterion whose routine is missing,
raises, times out or violates the return contract yields an
implemented-false outcome with an error description rather than being
omitted. -/
theorem run_outcomes_complete (cfg : RegistryItem) (funcs : CheckFuncs) :
    (run_assessment cfg funcs).length = cfg.assessmentCriteria.length ∧
    (∀ i : Nat, ∀ hi : i < cfg.assessmentCriteria.length,
      ∀ hr : i < (run_assessment cfg funcs).length,
      (run_assessment cfg funcs).get ⟨i, hr⟩ =
        evalCriterion funcs (cfg.assessmentCriteria.get ⟨i, hi⟩)) ∧
    (∀ c : Criterion, List.lookup c.checkFunction funcs = none →
      (evalCriterion funcs c).implemented = .vBool false ∧
      (evalCriterion funcs c).error =
        some ("Check function not found: " ++ c.checkFunction)) ∧
    (∀ c : Criterion, ∀ run : RoutineRun, ∀ e : String,
      List.lookup c.checkFunction funcs = some run →
      execute_check_function run = .error e →
      (evalCriterion funcs c).implemented = .vBool false ∧
      (evalCriterion funcs c).error = some e) := by
  refine ⟨?_, ?_, ?_, ?_⟩
  · simp [run_assessment]
  · intro i hi hr
    simp [run_assessment]
  · intro c hnone
    simp [evalCriterion, hnone]
  · intro c run e hlook hexec
    simp [evalCriterion, hlook, hexec]

/-- Witness for C2: under `funcsSample` the three-criterion configuration
yields three ordered outcomes (the third of which timed out), a missing
routine yields the not-found outcome and a raising routine yields its
error as an implemented-false outcome. -/
theorem run_outcomes_complete_witness :
    (run_assessment cfgSample funcsSample).length =
      cfgSample.assessmentCriteria.length ∧
    (run_assessment cfgSample funcsSample).get ⟨2, by decide⟩ =
      evalCriterion funcsSample (cfgSample.assessmentCriteria.get ⟨2, by decide⟩) ∧
    ((evalCriterion funcsBadShape critMissing).implemented = .vBool false ∧
      (evalCriterion funcsBadShape critMissing).error =
        some ("Check function not found: " ++ critMissing.checkFunction)) ∧
    ((evalCriterion funcsBadShape critEH).implemented = .vBool false ∧
      (evalCriterion funcsBadShape critEH).error =
        some "AccessDenied when calling ListFunctions") :=
  ⟨(run_outcomes_complete cfgSample funcsSample).1,
   (run_outcomes_complete cfgSample funcsSample).2.1 2 (by decide) (by decide),
   (run_outcomes_complete cfgSample funcsBadShape).2.2.1 critMissing rfl,
   (run_outcomes_complete cfgSample funcsBadShape).2.2.2 critEH
     { duration := 1, result := .error "AccessDenied when calling ListFunctions" }
     "AccessDenied when calling ListFunctions" rfl rfl⟩

/-- Forward evaluation: a definition-resolution failure aborts the run
with that error and performs no further external call. -/
lemma handler_resolve_error {env : Env} {ctx : RunContext} {pid cid tid e : String}
    (hpid : pid ≠ "") (hcid : cid ≠ "")
    (he : load_challenge_config env cid = .error e) :
    lambda_handler env ctx ⟨some pid, some cid, some tid⟩ = (.error e, noEffects) := by
  simp only [lambda_handler, Option.getD_some]
  rw [if_neg (by simp [hpid, hcid]), he]

/-- Forward evaluation: a bundle-load failure aborts the run with that
error; only the bundle load was attempted and nothing is persisted. -/
lemma handler_bundle_error {env : Env} {ctx : RunContext} {pid cid tid e : String}
    {cfg : RegistryItem}
    (hpid : pid ≠ "") (hcid : cid ≠ "")
    (hcfg : load_challenge_config env cid = .ok cfg)
    (he : load_check_functions_from_s3 env cfg.s3Location cfg.checkFunctionsFile
      ctx.epochSeconds = .error e) :
    lambda_handler env ctx ⟨some pid, some cid, some tid⟩ =
      (.error e, { noEffects with bundleLoadAttempted := true }) := by
  simp only [lambda_handler, Option.getD_some]
  rw [if_neg (by simp [hpid, hcid]), hcfg]
  simp only [he]

/-- Forward evaluation: a credential-acquisition failure aborts the run
with that error; nothing is persisted. -/
lemma handler_creds_error {env : Env} {ctx : RunContext} {pid cid tid e : String}
    {cfg : RegistryItem} {loaded : LoadedModule}
    (hpid : pid ≠ "") (hcid : cid ≠ "")
    (hcfg : load_challenge_config env cid = .ok cfg)
    (hload : load_check_functions_from_s3 env cfg.s3Location cfg.checkFunctionsFile
      ctx.epochSeconds = .ok loaded)
    (he : assume_assessment_role env (identify_team_account env tid) = .error e) :
    lambda_handler env ctx ⟨some pid, some cid, some tid⟩ =
      (.error e,
       { noEffects with bundleLoadAttempted := true, credsAttempted := true }) := by
  simp only [lambda_handler, Option.getD_some]
  rw [if_neg (by simp [hpid, hcid]), hcfg]
  simp only [hload, he]

/-- Forward evaluation: when resolution, loading and authorization all
succeed and the results store accepts the write, the run completes with
an `.ok` response carrying the computed results, whatever the individual
routines did. -/
lemma handler_completes {env : Env} {ctx : RunContext} {pid cid tid : String}
    {cfg : RegistryItem} {loaded : LoadedModule} {creds : Creds}
    (hpid : pid ≠ "") (hcid : cid ≠ "")
    (hcfg : load_challenge_config env cid = .ok cfg)
    (hload : load_check_functions_from_s3 env cfg.s3Location cfg.checkFunctionsFile
      ctx.epochSeconds = .ok loaded)
    (hcreds : assume_assessment_role env (identify_team_account env tid) = .ok creds)
    (hput : ∀ it : StoredItem, env.putItemRaw it = .ok ()) :
    ∃ resp : EngineResponse, ∃ item : StoredItem,
      lambda_handler env ctx ⟨some pid, some cid, some tid⟩ =
        (.ok resp,
         { bundleLoadAttempted := true, credsAttempted := true
           persistAttempted := true, stored := [item] }) ∧
      resp.results = run_assessment cfg loaded.funcs := by
  refine ⟨{ participantId := pid, challengeId := cid, teamId := tid
            score := calculate_score (run_assessment cfg loaded.funcs)
            maxScore := calculate_max_score cfg
            passed := decide (cfg.passingScore.getD 80 ≤
              calculate_score (run_assessment cfg loaded.funcs))
            results := run_assessment cfg loaded.funcs
            feedback := generate_feedback (run_assessment cfg loaded.funcs)
              (calculate_score (run_assessment cfg loaded.funcs))
              (decide (cfg.passingScore.getD 80 ≤
                calculate_score (run_assessment cfg loaded.funcs)))
            timestamp := ctx.isoNow },
          { participantId := pid, challengeId := cid, teamId := tid
            timestamp := ctx.epochMillis
            score := calculate_score (run_assessment cfg loaded.funcs)
            details := run_assessment cfg loaded.funcs
            passed := decide (cfg.passingScore.getD 80 ≤
              calculate_score (run_assessment cfg loaded.funcs))
            assessedAt := ctx.isoNow },
          ?_, rfl⟩
  simp only [lambda_handler, Option.getD_some]
  rw [if_neg (by simp [hpid, hcid]), hcfg]
  simp only [hload, hcreds, store_assessment_results, hput]

/-- Forward evaluation: when everything up to scoring succeeded but the
results-store write fails, the handler re-raises the wrapped persistence
error and nothing is stored. -/
lemma handler_store_error {env : Env} {ctx : RunContext} {pid cid tid e : String}
    {cfg : RegistryItem} {loaded : LoadedModule} {creds : Creds}
    (hpid : pid ≠ "") (hcid : cid ≠ "")
    (hcfg : load_challenge_config env cid = .ok cfg)
    (hload : load_check_functions_from_s3 env cfg.s3Location cfg.checkFunctionsFile
      ctx.epochSeconds = .ok loaded)
    (hcreds : assume_assessment_role env (identify_team_account env tid) = .ok creds)
    (hput : ∀ it : StoredItem, env.putItemRaw it = .error e) :
    lambda_handler env ctx ⟨some pid, some cid, some tid⟩ =
      (.error ("Failed to store assessment results: " ++ e),
       { bundleLoadAttempted := true, credsAttempted := true
         persistAttempted := true, stored := [] }) := by
  simp only [lambda_handler, Option.getD_some]
  rw [if_neg (by simp [hpid, hcid]), hcfg]
  simp only [hload, hcreds, store_assessment_results, hput]

/-- C3: a failure while resolving the definition, loading the routine
bundle or acquiring credentials is terminal — the run fails with that
error and nothing is persisted — whereas when those three stages succeed
(and the store accepts the write) the run completes with a full result
regardless of what the individual criterion routines did. -/
theorem fatal_stage_failures_terminal (env : Env) (ctx : RunContext)
    (pid cid tid : String) (hpid : pid ≠ "") (hcid : cid ≠ "") :
    (∀ e : String, load_challenge_config env cid = .error e →
      lambda_handler env ctx ⟨some pid, some cid, some tid⟩ =
        (.error e, noEffects)) ∧
    (∀ cfg : RegistryItem, ∀ e : String,
      load_challenge_config env cid = .ok cfg →
      load_check_functions_from_s3 env cfg.s3Location cfg.checkFunctionsFile
        ctx.epochSeconds = .error e →
      lambda_handler env ctx ⟨some pid, some cid, some tid⟩ =
        (.error e, { noEffects with bundleLoadAttempted := true })) ∧
    (∀ cfg : RegistryItem, ∀ loaded : LoadedModule, ∀ e : String,
      load_challenge_config env cid = .ok cfg →
      load_check_functions_from_s3 env cfg.s3Location cfg.checkFunctionsFile
        ctx.epochSeconds = .ok loaded →
      assume_assessment_role env (identify_team_account env tid) = .error e →
      lambda_handler env ctx ⟨some pid, some cid, some tid⟩ =
        (.error e,
         { noEffects with bundleLoadAttempted := true, credsAttempted := true })) ∧
    (∀ cfg : RegistryItem, ∀ loaded : LoadedModule, ∀ creds : Creds,
      load_challenge_config env cid = .ok cfg →
      load_check_functions_from_s3 env cfg.s3Location cfg.checkFunctionsFile
        ctx.epochSeconds = .ok loaded →
      assume_assessment_role env (identify_team_account env tid) = .ok creds →
      (∀ it : StoredItem, env.putItemRaw it = .ok ()) →
      ∃ resp : EngineResponse, ∃ item : StoredItem,
        lambda_handler env ctx ⟨some pid, some cid, some tid⟩ =
          (.ok resp,
           { bundleLoadAttempted := true, credsAttempted := true
             persistAttempted := true, stored := [item] }) ∧
        resp.results = run_assessment cfg loaded.funcs) :=
  ⟨fun _ he => handler_resolve_error hpid hcid he,
   fun _ _ hcfg he => handler_bundle_error hpid hcid hcfg he,
   fun _ _ _ hcfg hload he => handler_creds_error hpid hcid hcfg hload he,
   fun _ _ _ hcfg hload hcreds hput =>
     handler_completes hpid hcid hcfg hload hcreds hput⟩

/-- Witness for C3: a missing registry record, a failing bundle fetch and
a denied role assumption each abort the concrete run without persisting,
while the `envHappy` run (whose third routine times out) still completes
and persists. -/
theorem fatal_stage_failures_terminal_witness :
    lambda_handler envNotFound ctxSample
      ⟨some "p1", some "reliability-voting-system", some "team1"⟩ =
      (.error "Challenge not found: reliability-voting-system", noEffects) ∧
    lambda_handler envS3Fail ctxSample
      ⟨some "p1", some "reliability-voting-system", some "team1"⟩ =
      (.error "Failed to load check functions from S3: NoSuchKey",
       { noEffects with bundleLoadAttempted := true }) ∧
    lambda_handler envStsFail ctxSample
      ⟨some "p1", some "reliability-voting-system", some "team1"⟩ =
      (.error "Failed to assume role in participant account: AccessDenied",
       { noEffects with bundleLoadAttempted := true, credsAttempted := true }) ∧
    ∃ resp : EngineResponse, ∃ item : StoredItem,
      lambda_handler envHappy ctxSample
        ⟨some "p1", some "reliability-voting-system", some "team1"⟩ =
        (.ok resp,
         { bundleLoadAttempted := true, credsAttempted := true
           persistAttempted := true, stored := [item] }) ∧
      resp.results = run_assessment cfgSample funcsSample :=
  ⟨(fatal_stage_failures_terminal envNotFound ctxSample "p1"
      "reliability-voting-system" "team1" (by decide) (by decide)).1 _ rfl,
   (fatal_stage_failures_terminal envS3Fail ctxSample "p1"
      "reliability-voting-system" "team1" (by decide) (by decide)).2.1
     cfgSample _ rfl rfl,
   (fatal_stage_failures_terminal envStsFail ctxSample "p1"
      "reliability-voting-system" "team1" (by decide) (by decide)).2.2.1
     cfgSample { name := "check_functions_1700000000", funcs := funcsSample } _
     rfl rfl rfl,
   (fatal_stage_failures_terminal envHappy ctxSample "p1"
      "reliability-voting-system" "team1" (by decide) (by decide)).2.2.2
     cfgSample { name := "check_functions_1700000000", funcs := funcsSample }
     credsSample rfl rfl rfl (fun _ => rfl)⟩

/-- C4 counterexample: on a run where everything up to scoring succeeds
but the results-store write fails, the handler raises the persistence
error out to the caller — the caller does not receive the computed
AssessmentResult, contrary to the claim. -/
theorem persistence_failure_crashes_run :
    (lambda_handler envStoreFail ctxSample eventSample).1 =
      .error
        "Failed to store assessment results: ProvisionedThroughputExceededException" ∧
    (lambda_handler envStoreFail ctxSample eventSample).2.stored = [] ∧
    ¬ ∃ resp : EngineResponse,
        (lambda_handler envStoreFail ctxSample eventSample).1 = .ok resp := by
  refine ⟨rfl, rfl, ?_⟩
  rintro ⟨resp, h⟩
  have hv : (lambda_handler envStoreFail ctxSample eventSample).1 =
      .error
        "Failed to store assessment results: ProvisionedThroughputExceededException" :=
    rfl
  rw [hv] at h
  exact Except.noConfusion h

/-- C4 amended: a failure of the results-store write after scoring is
logged and re-raised — the run fails with the wrapped persistence error,
the caller receives that error instead of the computed AssessmentResult,
and nothing is persisted. -/
theorem persistence_failure_escalates (env : Env) (ctx : RunContext)
    (pid cid tid e : String) (hpid : pid ≠ "") (hcid : cid ≠ "")
    (cfg : RegistryItem) (loaded : LoadedModule) (creds : Creds)
    (hcfg : load_challenge_config env cid = .ok cfg)
    (hload : load_check_functions_from_s3 env cfg.s3Location cfg.checkFunctionsFile
      ctx.epochSeconds = .ok loaded)
    (hcreds : assume_assessment_role env (identify_team_account env tid) = .ok creds)
    (hput : ∀ it : StoredItem, env.putItemRaw it = .error e) :
    lambda_handler env ctx ⟨some pid, some cid, some tid⟩ =
      (.error ("Failed to store assessment results: " ++ e),
       { bundleLoadAttempted := true, credsAttempted := true
         persistAttempted := true, stored := [] }) :=
  handler_store_error hpid hcid hcfg hload hcreds hput

/-- Witness for the amended C4 on the concrete `envStoreFail` run. -/
theorem persistence_failure_escalates_witness :
    lambda_handler envStoreFail ctxSample
      ⟨some "p1", some "reliability-voting-system", some "team1"⟩ =
      (.error
        "Failed to store assessment results: ProvisionedThroughputExceededException",
       { bundleLoadAttempted := true, credsAttempted := true
         persistAttempted := true, stored := [] }) :=
  persistence_failure_escalates envStoreFail ctxSample "p1"
    "reliability-voting-system" "team1" "ProvisionedThroughputExceededException"
    (by decide) (by decide) cfgSample
    { name := "check_functions_1700000000", funcs := funcsSample } credsSample
    rfl rfl rfl (fun _ => rfl)

/-- C5 counterexample: a routine that returns before the deadline with a
dict whose `implemented` holds the non-boolean truthy value `1` passes
validation — the outcome carries `implemented = 1` with no error and the
criterion's full points are awarded, contrary to the claim that a
non-boolean `implemented` yields an implemented-false outcome with a
contract-violation error and never earns points. -/
theorem nonboolean_implemented_earns_points :
    run_assessment cfgOneCrit funcsNonBool =
      [{ criterionId := "multi-region", name := "Multi-Region Deployment"
         points := 10, maxPoints := 10, implemented := .vInt 1
         details := some (.vDict []), error := none }] ∧
    calculate_score (run_assessment cfgOneCrit funcsNonBool) = 10 ∧
    PyVal.vInt 1 ≠ PyVal.vBool false := by
  refine ⟨rfl, rfl, ?_⟩
  intro h
  exact PyVal.noConfusion h

/-- C5 amended: for a routine that returns before the deadline, the
sandbox validates only that the value is a dict containing an
`implemented` key.  A non-dict return or a missing key yields an
implemented-false outcome with the contract-violation error and no
points; any present `implemented` value — boolean or not — is accepted
as-is, and its Python truthiness decides whether points are earned. -/
theorem return_shape_validation (funcs : CheckFuncs) (c : Criterion)
    (run : RoutineRun) (hlook : List.lookup c.checkFunction funcs = some run)
    (hdur : run.duration ≤ checkTimeoutSeconds) :
    (∀ v : PyVal, run.result = .ok v → isDict v = false →
      evalCriterion funcs c =
        { criterionId := c.id, name := c.name, points := 0, maxPoints := c.points
          implemented := .vBool false, details := none
          error := some "Check function must return a dictionary" }) ∧
    (∀ v : PyVal, run.result = .ok v → isDict v = true →
      dictGet v "implemented" = none →
      evalCriterion funcs c =
        { criterionId := c.id, name := c.name, points := 0, maxPoints := c.points
          implemented := .vBool false, details := none
          error := some "Check function result must include \x27implemented\x27 key" }) ∧
    (∀ v impl : PyVal, run.result = .ok v → dictGet v "implemented" = some impl →
      evalCriterion funcs c =
        { criterionId := c.id, name := c.name
          points := if pyTruthy impl then c.points else 0, maxPoints := c.points
          implemented := impl
          details := some ((dictGet v "details").getD (.vDict []))
          error := none }) := by
  have hnd : ¬ checkTimeoutSeconds < run.duration := Nat.not_lt.mpr hdur
  refine ⟨?_, ?_, ?_⟩
  · intro v hv hdict
    simp [evalCriterion, hlook, execute_check_function, if_neg hnd, hv, hdict]
  · intro v hv hdict hkey
    simp [evalCriterion, hlook, execute_check_function, if_neg hnd, hv, hdict, hkey]
  · intro v impl hv hkey
    have hdict : isDict v = true := by
      cases v <;> simp_all [dictGet, isDict]
    simp [evalCriterion, hlook, execute_check_function, if_neg hnd, hv, hdict, hkey]

/-- Witness for the amended C5: the non-dict return and the key-less dict
of `funcsBadShape` produce the two contract-violation outcomes, and the
non-boolean `implemented = 1` of `funcsNonBool` is accepted with full
points. -/
theorem return_shape_validation_witness :
    (evalCriterion funcsBadShape critMR =
      { criterionId := "multi-region", name := "Multi-Region Deployment"
        points := 0, maxPoints := 10, implemented := .vBool false, details := none
        error := some "Check function must return a dictionary" }) ∧
    (evalCriterion funcsBadShape critDB =
      { criterionId := "dynamodb-backup", name := "DynamoDB Point-in-Time Recovery"
        points := 0, maxPoints := 10, implemented := .vBool false, details := none
        error := some "Check function result must include \x27implemented\x27 key" }) ∧
    (evalCriterion funcsNonBool critMR =
      { criterionId := "multi-region", name := "Multi-Region Deployment"
        points := if pyTruthy (.vInt 1) then 10 else 0, maxPoints := 10
        implemented := .vInt 1, details := some (.vDict []), error := none }) :=
  ⟨(return_shape_validation funcsBadShape critMR
      { duration := 1, result := .ok (.vStr "looks fine") } rfl (by decide)).1
    (.vStr "looks fine") rfl rfl,
   (return_shape_validation funcsBadShape critDB
      { duration := 1, result := .ok (.vDict [("details", .vDict [])]) } rfl
      (by decide)).2.1 (.vDict [("details", .vDict [])]) rfl rfl rfl,
   (return_shape_validation funcsNonBool critMR
      { duration := 1, result := .ok (.vDict [("implemented", .vInt 1)]) } rfl
      (by decide)).2.2 (.vDict [("implemented", .vInt 1)]) (.vInt 1) rfl rfl⟩

/-- C6 counterexample: two registry records that differ only in a
configured `checkTimeout` attribute (5 vs 60 seconds) produce identical
assessments — a 45-second routine times out under both (even though one
"configures" 60 seconds) and a 10-second routine completes under both
(even though the other "configures" 5 seconds): the deadline is not
configurable per definition. -/
theorem deadline_not_configurable :
    cfgT5 ≠ cfgT60 ∧
    run_assessment cfgT5 funcsSlowQuick = run_assessment cfgT60 funcsSlowQuick ∧
    (run_assessment cfgT5 funcsSlowQuick).get ⟨0, by decide⟩ =
      { criterionId := "multi-region", name := "Multi-Region Deployment"
        points := 0, maxPoints := 10, implemented := .vBool false, details := none
        error := some "Check function execution timed out" } ∧
    (run_assessment cfgT60 funcsSlowQuick).get ⟨1, by decide⟩ =
      { criterionId := "dynamodb-backup", name := "DynamoDB Point-in-Time Recovery"
        points := 10, maxPoints := 10, implemented := .vBool true
        details := some (.vDict []), error := none } := by
  refine ⟨?_, rfl, rfl, rfl⟩
  intro h
  have h2 := congrArg RegistryItem.extra h
  simp [cfgT5, cfgT60] at h2

/-- C6 amended: every routine is invoked under a wall-clock deadline
fixed at 30 seconds regardless of the definition; a routine whose
execution exceeds it yields an implemented-false outcome with the
timeout error and zero points, and every other criterion of the run is
still evaluated (the result list keeps one entry per criterion, each
computed independently). -/
theorem fixed_thirty_second_deadline (funcs : CheckFuncs) (c : Criterion)
    (run : RoutineRun) (hlook : List.lookup c.checkFunction funcs = some run)
    (hdur : checkTimeoutSeconds < run.duration) :
    checkTimeoutSeconds = 30 ∧
    evalCriterion funcs c =
      { criterionId := c.id, name := c.name, points := 0, maxPoints := c.points
        implemented := .vBool false, details := none
        error := some "Check function execution timed out" } ∧
    (∀ cfg : RegistryItem,
      run_assessment cfg funcs = cfg.assessmentCriteria.map (evalCriterion funcs) ∧
      (run_assessment cfg funcs).length = cfg.assessmentCriteria.length) := by
  refine ⟨rfl, ?_, fun cfg => ⟨rfl, by simp [run_assessment]⟩⟩
  simp [evalCriterion, hlook, execute_check_function, if_pos hdur]

/-- Witness for the amended C6: the 45-second routine of
`funcsSlowQuick` times out at the fixed 30-second deadline while the
10-second routine of the same module still runs. -/
theorem fixed_thirty_second_deadline_witness :
    checkTimeoutSeconds = 30 ∧
    evalCriterion funcsSlowQuick critMR =
      { criterionId := "multi-region", name := "Multi-Region Deployment"
        points := 0, maxPoints := 10, implemented := .vBool false, details := none
        error := some "Check function execution timed out" } ∧
    (∀ cfg : RegistryItem,
      run_assessment cfg funcsSlowQuick =
        cfg.assessmentCriteria.map (evalCriterion funcsSlowQuick) ∧
      (run_assessment cfg funcsSlowQuick).length =
        cfg.assessmentCriteria.length) :=
  fixed_thirty_second_deadline funcsSlowQuick critMR
    { duration := 45, result := .ok (.vDict [("implemented", .vBool true)]) }
    rfl (by decide)

/-- Members produced from an already-seen prefix are never re-emitted. -/
lemma uniqueFirstAux_not_mem_of_seen :
    ∀ (xs seen : List String) (y : String), y ∈ seen →
      y ∉ uniqueFirstAux seen xs := by
  intro xs
  induction xs with
  | nil =>
    intro seen y hy
    simp [uniqueFirstAux]
  | cons x xs ih =>
    intro seen y hy
    unfold uniqueFirstAux
    by_cases h : x ∈ seen
    · simpa [h] using ih seen y hy
    · simp only [h, if_false]
      intro hmem
      rcases List.mem_cons.mp hmem with rfl | hmem2
      · exact h hy
      · exact ih (x :: seen) y (List.mem_cons_of_mem x hy) hmem2

/-- The first-occurrence deduplication never emits an element twice. -/
lemma uniqueFirstAux_nodup : ∀ (xs seen : List String),
    (uniqueFirstAux seen xs).Nodup := by
  intro xs
  induction xs with
  | nil =>
    intro seen
    simp [uniqueFirstAux]
  | cons x xs ih =>
    intro seen
    unfold uniqueFirstAux
    by_cases h : x ∈ seen
    · simpa [h] using ih seen
    · simp only [h, if_false, List.nodup_cons]
      exact ⟨uniqueFirstAux_not_mem_of_seen xs (x :: seen) x
          (List.mem_cons_self x seen), ih (x :: seen)⟩

/-- A deduplicated list has no duplicates. -/
lemma uniqueFirst_nodup (xs : List String) : (uniqueFirst xs).Nodup :=
  uniqueFirstAux_nodup xs []

/-- A dispatch record carries the participant id it was built for. -/
lemma triggerAssessment_participantId (env : TriggerEnv) (pid src : String) :
    (triggerAssessment env pid src).participantId = pid := by
  unfold triggerAssessment
  split <;> rfl

/-- C7 (code bug): on the scheduled-event shape EventBridge actually
sends — and which the repository's own test uses, with both
`source: 'aws.events'` and `detail-type: 'Scheduled Event'` — the
dispatcher classifies the event by its `source` string first, matches no
extraction case, and triggers zero assessments even though the
active-subjects query returns two active subjects; the test expects two
assessments to be triggered. -/
theorem scheduled_event_with_source_dispatches_nothing :
    identifyEventSource schedEvtWithSource = "aws.events" ∧
    getActiveParticipants envTriggerTwo = ["test-user-1", "test-user-2"] ∧
    trigger_handler envTriggerTwo schedEvtWithSource =
      { statusCode := 200, message := "No participants to assess", results := [] } :=
  ⟨rfl, rfl, rfl⟩

/-- On a source-less scheduled event, the dispatcher's triggered
participants are exactly the deduplicated enumeration of the
active-subjects query. -/
lemma trigger_scheduled_results (env : TriggerEnv) (items : List String)
    (hq : env.activeQuery = .ok items) :
    (trigger_handler env schedEvtNoSource).results.map (fun r => r.participantId) =
      uniqueFirst items := by
  have hids : extractParticipantIds env schedEvtNoSource
      (identifyEventSource schedEvtNoSource) = uniqueFirst items := by
    simp [identifyEventSource, schedEvtNoSource, schedEvtWithSource, jsTruthyStr,
      extractParticipantIds, getActiveParticipants, hq]
  simp only [trigger_handler]
  rw [hids]
  by_cases h : (uniqueFirst items).isEmpty
  · rw [if_pos h, List.isEmpty_iff.mp h]
    rfl
  · rw [if_neg h]
    dsimp only
    rw [List.map_map]
    have hcong : ∀ pid ∈ uniqueFirst items,
        ((fun r => r.participantId) ∘ fun pid =>
          triggerAssessment env pid (identifyEventSource schedEvtNoSource)) pid =
          id pid :=
      fun pid _ => triggerAssessment_participantId env pid _
    rw [List.map_congr_left hcong, List.map_id]

/-- C8: within one dispatch cycle the scheduled path deduplicates the
enumerated subjects, so every subject is dispatched at most once; in
particular the duplicated enumeration `[A, B, A]` triggers exactly two
assessments, for `A` and `B`. -/
theorem dispatch_dedup (items : List String) (invoke : String → Bool) :
    ((trigger_handler
        { activeQuery := .ok items, stacksQuery := .ok [], invokeOk := invoke }
        schedEvtNoSource).results.map (fun r => r.participantId)) =
      uniqueFirst items ∧
    (uniqueFirst items).Nodup ∧
    trigger_handler envTriggerDup schedEvtNoSource =
      { statusCode := 200, message := "Triggered 2 assessments (0 failed)"
        results :=
          [{ participantId := "participant-a", source := "scheduled-event"
             status := "triggered" },
           { participantId := "participant-b", source := "scheduled-event"
             status := "triggered" }] } :=
  ⟨trigger_scheduled_results _ items rfl, uniqueFirst_nodup items, rfl⟩

/-- C9 counterexample: two loads performed within the same wall-clock
second — here for two different definitions' bundles — are instantiated
under the same internal module name `check_functions_1700000000`, and
registering the second under that name shadows the first in the module
table, contrary to the claim that any two loads get distinct names and
coexist. -/
theorem same_second_loads_share_name :
    load_check_functions_from_s3 envLoader "s3://ctf-reliability-challenges/def-a/"
      "check-functions.py" 1700000000 =
      .ok { name := "check_functions_1700000000", funcs := funcsBundleA } ∧
    load_check_functions_from_s3 envLoader "s3://ctf-reliability-challenges/def-b/"
      "check-functions.py" 1700000000 =
      .ok { name := "check_functions_1700000000", funcs := funcsBundleB } ∧
    funcsBundleA ≠ funcsBundleB ∧
    List.lookup "check_functions_1700000000"
      (sysModulesSet (sysModulesSet [] "check_functions_1700000000" funcsBundleA)
        "check_functions_1700000000" funcsBundleB) = some funcsBundleB := by
  refine ⟨rfl, rfl, ?_, rfl⟩
  intro h
  simp [funcsBundleA, funcsBundleB] at h

/-- C9 amended: the loader derives the internal module name solely from
the load's epoch second (`check_functions_<int(time.time())>`), so loads
in distinct seconds get distinct names and coexist in the module table,
but loads within the same second share one name and the later
registration replaces the earlier one. -/
theorem module_name_per_epoch_second (env : Env)
    (loc1 file1 loc2 file2 : String) (t1 t2 : Nat) (m1 m2 : LoadedModule)
    (h1 : load_check_functions_from_s3 env loc1 file1 t1 = .ok m1)
    (h2 : load_check_functions_from_s3 env loc2 file2 t2 = .ok m2) :
    (m1.name = moduleNameAt t1 ∧ m2.name = moduleNameAt t2) ∧
    (t1 ≠ t2 → m1.name ≠ m2.name) ∧
    (∀ (mods : List (String × CheckFuncs)) (funcs1 funcs2 : CheckFuncs) (n : String),
      List.lookup n (sysModulesSet (sysModulesSet mods n funcs1) n funcs2) =
        some funcs2) ∧
    (∀ (mods : List (String × CheckFuncs)) (funcs1 funcs2 : CheckFuncs)
      (n1 n2 : String), n1 ≠ n2 →
      List.lookup n1 (sysModulesSet (sysModulesSet mods n1 funcs1) n2 funcs2) =
        some funcs1 ∧
      List.lookup n2 (sysModulesSet (sysModulesSet mods n1 funcs1) n2 funcs2) =
        some funcs2) := by
  have hname : ∀ (loc file : String) (t : Nat) (m : LoadedModule),
      load_check_functions_from_s3 env loc file t = .ok m → m.name = moduleNameAt t := by
    intro loc file t m hm
    cases hf : env.s3FetchModule loc file <;>
      simp [load_check_functions_from_s3, hf] at hm
    rw [← hm]
  have hn1 := hname loc1 file1 t1 m1 h1
  have hn2 := hname loc2 file2 t2 m2 h2
  refine ⟨⟨hn1, hn2⟩, ?_, ?_, ?_⟩
  · intro hne heq
    rw [hn1, hn2] at heq
    exact hne (nat_repr_injective t1 t2 (string_append_left_cancel heq))
  · intro mods funcs1 funcs2 n
    simp [sysModulesSet, List.lookup]
  · intro mods funcs1 funcs2 n1 n2 hne
    have hb : (n1 == n2) = false := beq_eq_false_iff_ne.mpr hne
    have hb2 : (n2 == n1) = false := beq_eq_false_iff_ne.mpr (Ne.symm hne)
    constructor
    · simp [sysModulesSet, List.lookup, hb, hb2]
    · simp [sysModulesSet, List.lookup]

/-- Witness for the amended C9: the `envLoader` loads at seconds
1700000000 and 1700000001 get the two distinct timestamp names, and
same-name registration shadows. -/
theorem module_name_per_epoch_second_witness :
    moduleNameAt 1700000000 ≠ moduleNameAt 1700000001 ∧
    List.lookup "check_functions_1700000000"
      (sysModulesSet (sysModulesSet [] "check_functions_1700000000" funcsBundleA)
        "check_functions_1700000000" funcsBundleB) = some funcsBundleB :=
  ⟨(module_name_per_epoch_second envLoader
      "s3://ctf-reliability-challenges/def-a/" "check-functions.py"
      "s3://ctf-reliability-challenges/def-b/" "check-functions.py"
      1700000000 1700000001
      { name := "check_functions_1700000000", funcs := funcsBundleA }
      { name := "check_functions_1700000001", funcs := funcsBundleB }
      rfl rfl).2.1 (by decide),
   (module_name_per_epoch_second envLoader
      "s3://ctf-reliability-challenges/def-a/" "check-functions.py"
      "s3://ctf-reliability-challenges/def-b/" "check-functions.py"
      1700000000 1700000001
      { name := "check_functions_1700000000", funcs := funcsBundleA }
      { name := "check_functions_1700000001", funcs := funcsBundleB }
      rfl rfl).2.2.1 [] funcsBundleA funcsBundleB "check_functions_1700000000"⟩

/-- C10: the resolver treats a registry record as active exactly when its
`active` attribute is absent or equals the string `true`; any other
stored value — including the boolean `True` — fails resolution with the
inactive error, a missing record fails with the not-found error, and a
resolution failure aborts the run before any bundle load, credential
acquisition or persistence. -/
theorem registry_active_gate (env : Env) (ctx : RunContext) :
    (∀ item : RegistryItem,
      challengeIsActive item = true ↔
        (item.active = none ∨ item.active = some (.vStr "true"))) ∧
    challengeIsActive cfgBoolActive = false ∧
    (∀ cid : String, env.registryGet cid = .ok none →
      load_challenge_config env cid = .error ("Challenge not found: " ++ cid)) ∧
    (∀ (cid : String) (item : RegistryItem),
      env.registryGet cid = .ok (some item) → challengeIsActive item = false →
      load_challenge_config env cid = .error ("Challenge is not active: " ++ cid)) ∧
    (∀ pid cid tid e : String, pid ≠ "" → cid ≠ "" →
      load_challenge_config env cid = .error e →
      lambda_handler env ctx ⟨some pid, some cid, some tid⟩ =
        (.error e, noEffects)) := by
  refine ⟨?_, rfl, ?_, ?_, ?_⟩
  · intro item
    cases hact : item.active with
    | none => simp [challengeIsActive, hact, pyEqStr]
    | some v =>
      cases v <;> simp [challengeIsActive, hact, pyEqStr]
  · intro cid h
    simp [load_challenge_config, h]
  · intro cid item h hinact
    simp [load_challenge_config, h, hinact]
  · intro pid cid tid e hpid hcid he
    exact handler_resolve_error hpid hcid he

/-- Witness for C10 on the concrete environments: the boolean-`True`
record is inactive, the missing record and the inactive record produce
the two error messages, and the run aborts with no effects. -/
theorem registry_active_gate_witness :
    (challengeIsActive cfgBoolActive = true ↔
      (cfgBoolActive.active = none ∨ cfgBoolActive.active = some (.vStr "true"))) ∧
    challengeIsActive cfgBoolActive = false ∧
    load_challenge_config envNotFound "reliability-voting-system" =
      .error "Challenge not found: reliability-voting-system" ∧
    load_challenge_config envInactive "reliability-voting-system" =
      .error "Challenge is not active: reliability-voting-system" ∧
    lambda_handler envNotFound ctxSample
      ⟨some "p1", some "reliability-voting-system", some "team1"⟩ =
      (.error "Challenge not found: reliability-voting-system", noEffects) :=
  ⟨(registry_active_gate envNotFound ctxSample).1 cfgBoolActive,
   (registry_active_gate envNotFound ctxSample).2.1,
   (registry_active_gate envNotFound ctxSample).2.2.1 "reliability-voting-system" rfl,
   (registry_active_gate envInactive ctxSample).2.2.2.1 "reliability-voting-system"
     cfgBoolActive rfl rfl,
   (registry_active_gate envNotFound ctxSample).2.2.2.2 "p1"
     "reliability-voting-system" "team1" _ (by decide) (by decide) rfl⟩

end RAE
